import Mathlib

/-!
Verification development for the SofaScore EPL scraper
(`scraper.py`, `runner.py`, `config.py`).

The Python code drives a browser; its interaction with the rendered page is
modelled by explicit environment records (what each element lookup / click
returned), while all decision logic, text parsing, navigation arithmetic and
the persistence/deduplication loop are translated directly from the source.
-/

namespace Sofa

/-! ## Basic character/string helpers shared by the parsers -/

/-- Numeric value of a decimal digit character. -/
def digitVal (c : Char) : Nat := c.toNat - 48

/-- Accumulate a decimal number over a maximal run of digit characters,
stopping at the first non-digit (the greedy `\d+` capture, then `int(...)`). -/
def takeDigits : Nat → List Char → Nat
  | n, [] => n
  | n, c :: rest => if c.isDigit then takeDigits (n * 10 + digitVal c) rest else n

/-- Case-insensitive character comparison (Python `re.IGNORECASE`). -/
def ciChar (a b : Char) : Bool := a.toLower == b.toLower

/-- Drop a literal pattern from the front of the input, case-sensitively.
Returns the remaining input on success. -/
def dropLead : List Char → List Char → Option (List Char)
  | [], l => some l
  | _ :: _, [] => none
  | p :: ps, c :: cs => if p = c then dropLead ps cs else none

/-- Drop a literal pattern from the front of the input, case-insensitively
(`re.IGNORECASE` on a literal). Returns the remaining input on success. -/
def dropLeadCI : List Char → List Char → Option (List Char)
  | [], l => some l
  | _ :: _, [] => none
  | p :: ps, c :: cs => if ciChar p c then dropLeadCI ps cs else none

/-- Python `\s` on the ASCII range: space, tab, newline, CR, VT, FF. -/
def isPySpace (c : Char) : Bool :=
  c = ' ' || c = '\t' || c = '\n' || c = '\r' || c = '\x0b' || c = '\x0c'

/-- The character class `[:\s]` of the total-votes pattern. -/
def isColonOrSpace (c : Char) : Bool := c = ':' || isPySpace c

/-- Python `str.strip()`: remove leading and trailing whitespace. -/
def stripChars (l : List Char) : List Char :=
  ((l.dropWhile isPySpace).reverse.dropWhile isPySpace).reverse

/-- The character class `[\d.,]` of the total-votes pattern. -/
def isNumChar (c : Char) : Bool := c.isDigit || c = '.' || c = ','

/-- Python `float(...)` on a string made of digits and dots: accepts
`d+`, `d+.d*` and `d*.d+`; anything else (two dots, empty, lone dot)
raises `ValueError`, modelled as `none`.  The value is represented exactly
as the pair (all digits read as one number, number of fractional digits),
denoting `v / 10 ^ f`; on the claims' inputs IEEE double rounding agrees
with this exact value. -/
def pyFloatOfDigits : List Char → Option (Nat × Nat) := fun l =>
  let intPart := l.takeWhile Char.isDigit
  let rest := l.dropWhile Char.isDigit
  match rest with
  | [] => if intPart.isEmpty then none else some (takeDigits 0 intPart, 0)
  | '.' :: frac =>
    if frac.all Char.isDigit && (!intPart.isEmpty || !frac.isEmpty) then
      some (takeDigits 0 (intPart ++ frac), frac.length)
    else none
  | _ => none

/-- The rational number denoted by a parsed decimal. -/
def decVal (d : Nat × Nat) : ℚ := (d.1 : ℚ) / (10 : ℚ) ^ d.2

/-- Python `int(float(number) * scale)` for a nonnegative parsed decimal:
truncation toward zero is Nat division here. -/
def scaleDecimal (d : Nat × Nat) (scale : Nat) : Nat := d.1 * scale / 10 ^ d.2

/-! ## `extract_percentage` (scraper.py lines 634-641)

`re.search(r'(\d+)%', text)`: the first maximal digit run immediately
followed by `'%'`; returns `int(group(1))`, else the string `"N/A"`. -/

/-- Result type of `extract_percentage`: a Python `int` or the string `"N/A"`. -/
inductive IntOrNA where
  | int (n : Int)
  | na
deriving DecidableEq, Repr

/-- Scanner for `(\d+)%`: `v` carries the value of the digit run currently
being read (if any). -/
def pctScan : Option Nat → List Char → IntOrNA
  | _, [] => .na
  | v, c :: rest =>
    if c.isDigit then pctScan (some ((v.getD 0) * 10 + digitVal c)) rest
    else
      match v with
      | some n => if c = '%' then .int (Int.ofNat n) else pctScan none rest
      | none => pctScan none rest

/-- `extract_percentage` from scraper.py. -/
def extract_percentage (text : String) : IntOrNA :=
  pctScan none text.toList

/-! ## `extract_total_votes` (scraper.py lines 643-663)

`re.search(r"Total votes[:\s]*([\d.,]+)([kM]?)", text, re.IGNORECASE)`.
Because of `re.IGNORECASE` the suffix class `[kM]` matches `k`, `K`, `m`
and `M`.  On a match: commas are stripped from group 1; suffix `k`/`K`
scales by 1000, `m`/`M` by 1000000 (via `float` then `int` then `str`);
otherwise the bare group-1 string is returned.  The result is always a
string; a float conversion error yields `"N/A"`. -/

/-- Try the total-votes pattern anchored at the current position.
Returns the number characters (group 1) and the optional suffix char. -/
def votesMatchAt (l : List Char) : Option (List Char × Option Char) :=
  match dropLeadCI ("Total votes".toList) l with
  | none => none
  | some rest =>
    let rest2 := rest.dropWhile isColonOrSpace
    let num := rest2.takeWhile isNumChar
    if num.isEmpty then none
    else
      match rest2.dropWhile isNumChar with
      | c :: _ =>
        if c = 'k' || c = 'K' || c = 'm' || c = 'M' then some (num, some c)
        else some (num, none)
      | [] => some (num, none)

/-- `re.search`: try the pattern at every start position, left to right. -/
def votesSearch : List Char → Option (List Char × Option Char)
  | [] => none
  | c :: rest =>
    match votesMatchAt (c :: rest) with
    | some r => some r
    | none => votesSearch rest

/-- Scale the captured number by the captured suffix, as the Python body does
after a successful match. -/
def scaleVotes (num : List Char) (suffix : Option Char) : String :=
  let cleaned := num.filter (fun c => c ≠ ',')
  match suffix with
  | some c =>
    match pyFloatOfDigits cleaned with
    | some q =>
      if c.toLower = 'k' then toString (scaleDecimal q 1000)
      else toString (scaleDecimal q 1000000)
    | none => "N/A"
  | none => String.mk cleaned

/-- `extract_total_votes` from scraper.py. -/
def extract_total_votes (text : String) : String :=
  match votesSearch text.toList with
  | some (num, suffix) => scaleVotes num suffix
  | none => "N/A"

/-! ## `extract_card_stats_from_text` (scraper.py lines 613-632)

`re.search(r'Avg\.\s*cards.?(\d+\.?\d)[^\d](\d+\.?\d)', text, re.IGNORECASE | re.DOTALL)`
with a fallback `re.findall(r'\d+\.\d+', text)`. -/

/-- Candidates for the group `(\d+\.?\d)` at the current position, in the
backtracking preference order of the regex engine: with the greedy `\d+`
taking `k` digits (`k` from the full run length downward), the group is
either the whole run plus `.` plus one digit, or a plain digit prefix of
length `k+1` (which exists only for `k` below the run length). -/
def cardGroupCands (l : List Char) : List (List Char × List Char) :=
  let run := l.takeWhile Char.isDigit
  let rest := l.dropWhile Char.isDigit
  let d := run.length
  if d = 0 then []
  else
    let dotted : List (List Char × List Char) :=
      match rest with
      | '.' :: c :: rs => if c.isDigit then [(run ++ ['.', c], rs)] else []
      | _ => []
    let plains : List (List Char × List Char) :=
      (List.range (d - 1)).map (fun j => (run.take (d - j), run.drop (d - j) ++ rest))
    dotted ++ plains

/-- Match `(\d+\.?\d)[^\d](\d+\.?\d)` at the current position, returning
both captured groups. -/
def cardPairAt (l : List Char) : Option (List Char × List Char) :=
  (cardGroupCands l).findSome? fun g1r =>
    match g1r.2 with
    | c :: r2 =>
      if c.isDigit then none
      else ((cardGroupCands r2).head?).map (fun g2r => (g1r.1, g2r.1))
    | [] => none

/-- Match the full card pattern anchored at the current position:
`Avg\.` (case-insensitively), `\s*`, `cards` (case-insensitively), a greedy
optional any-char `.?` (DOTALL), then the two number groups. -/
def cardMatchAt (l : List Char) : Option ((Nat × Nat) × (Nat × Nat)) :=
  match dropLeadCI ("Avg.".toList) l with
  | none => none
  | some r1 =>
    match dropLeadCI ("cards".toList) (r1.dropWhile isPySpace) with
    | none => none
    | some r3 =>
      let attempt : List Char → Option ((Nat × Nat) × (Nat × Nat)) := fun s =>
        match cardPairAt s with
        | some gg =>
          match pyFloatOfDigits gg.1, pyFloatOfDigits gg.2 with
          | some a, some b => some (a, b)
          | _, _ => none
        | none => none
      match r3 with
      | _ :: rs =>
        match attempt rs with
        | some p => some p
        | none => attempt r3
      | [] => attempt r3

/-- `re.search` of the card pattern over all start positions. -/
def cardSearch : List Char → Option ((Nat × Nat) × (Nat × Nat))
  | [] => none
  | c :: rest =>
    match cardMatchAt (c :: rest) with
    | some r => some r
    | none => cardSearch rest

/-- One-pass scanner for `re.findall(r'\d+\.\d+', text)`.  The state is
`none` (no candidate), `some (ds, none)` (inside the integer digit run `ds`),
or `some (ds, some fs)` (past the dot, with fraction digits `fs` so far);
a match is emitted when a nonempty fraction run ends. -/
def fdAux : Option (List Char × Option (List Char)) → List Char → List (List Char)
  | st, [] =>
    match st with
    | some (ds, some fs) => if fs.isEmpty then [] else [ds ++ '.' :: fs]
    | _ => []
  | st, c :: rest =>
    match st with
    | none =>
      if c.isDigit then fdAux (some ([c], none)) rest else fdAux none rest
    | some (ds, none) =>
      if c.isDigit then fdAux (some (ds ++ [c], none)) rest
      else if c = '.' then fdAux (some (ds, some [])) rest
      else fdAux none rest
    | some (ds, some fs) =>
      if c.isDigit then fdAux (some (ds, some (fs ++ [c]))) rest
      else if fs.isEmpty then fdAux none rest
      else (ds ++ '.' :: fs) :: fdAux none rest

/-- `re.findall(r'\d+\.\d+', text)`: non-overlapping matches, scanning left
to right; each match is a maximal digit run, a dot, and a maximal digit run. -/
def findDecimals (l : List Char) : List (List Char) :=
  fdAux none l

/-- `extract_card_stats_from_text` from scraper.py: the pair
(red-card average, yellow-card average), each `none` when the text yields
nothing (the Python `(None, None)` return). -/
def extract_card_stats_from_text (text : String) : Option (Nat × Nat) × Option (Nat × Nat) :=
  match cardSearch text.toList with
  | some ab => (some ab.1, some ab.2)
  | none =>
    match findDecimals text.toList with
    | g1 :: g2 :: _ =>
      match pyFloatOfDigits g1, pyFloatOfDigits g2 with
      | some a, some b => (some a, some b)
      | _, _ => (none, none)
    | _ => (none, none)

/-- C7: the text parsers satisfy the spec's vectors:
`extract_percentage "83%" = 83`;
`extract_total_votes "Total votes: 121k" = 121000` and
`extract_total_votes "Total votes: 2.3M" = 2300000` (both rendered as the
decimal strings the Python code returns); and
`extract_card_stats_from_text "Avg. cards 1.5 2.3"` yields red = 1.5 and
yellow = 2.3. -/
theorem parser_spec_vectors :
    extract_percentage "83%" = IntOrNA.int 83 ∧
    extract_total_votes "Total votes: 121k" = "121000" ∧
    extract_total_votes "Total votes: 2.3M" = "2300000" ∧
    (extract_card_stats_from_text "Avg. cards 1.5 2.3").1.map decVal = some ((3 : ℚ) / 2) ∧
    (extract_card_stats_from_text "Avg. cards 1.5 2.3").2.map decVal = some ((23 : ℚ) / 10) := by
  have hcard : extract_card_stats_from_text "Avg. cards 1.5 2.3" = (some (15, 1), some (23, 1)) := by
    decide
  refine ⟨by decide, by decide, by decide, ?_, ?_⟩
  · rw [hcard]
    norm_num [decVal]
  · rw [hcard]
    norm_num [decVal]

/-- C9 counterexample: because the total-votes pattern is compiled with
`re.IGNORECASE`, the suffix class `[kM]` also matches an uppercase `K`, so
`"Total votes: 121K"` is scaled to `"121000"`, not returned as the bare
`"121"` the claim predicts. -/
theorem total_votes_uppercase_suffix_cex :
    extract_total_votes "Total votes: 121K" = "121000" ∧
    extract_total_votes "Total votes: 121K" ≠ "121" := by
  refine ⟨by decide, by decide⟩

/-- C9 (amended): the multiplier suffix of `extract_total_votes` is matched
case-insensitively — each of `k`, `K` scales by 1000 and each of `m`, `M`
by 1000000 — a suffix-free number is returned unscaled, and the result is in
every case a string (the codomain of the function). -/
theorem total_votes_suffix_case_insensitive :
    extract_total_votes "Total votes: 121k" = "121000" ∧
    extract_total_votes "Total votes: 121K" = "121000" ∧
    extract_total_votes "Total votes: 2m" = "2000000" ∧
    extract_total_votes "Total votes: 2M" = "2000000" ∧
    extract_total_votes "Total votes: 121" = "121" := by
  refine ⟨by decide, by decide, by decide, by decide, by decide⟩

/-! ## Season selection (scraper.py lines 152-178)

`select_season` interacts with the page through `safe_find` / `safe_click`;
the outcomes of those interactions form the environment.  The trace records
the successful UI interactions the code performs. -/

/-- Outcomes of the page interactions `select_season` can attempt.
`displayedAfterReload` is what the season label would show after the
page-reload wait; the code never reads it. -/
structure SeasonEnv where
  displayedSeason : Option String
  dropdownClick : Bool
  optionClick : String → Bool
  displayedAfterReload : Option String

/-- UI interactions performed by `select_season`. -/
inductive SeasonUI where
  | openSeasonDropdown
  | clickSeasonOption (s : String)
deriving DecidableEq, Repr

/-- `_is_season_selected`: the season label element exists and its stripped
text equals the target season. -/
def is_season_selected (displayed : Option String) (season : String) : Bool :=
  match displayed with
  | none => false
  | some t => stripChars t.toList == season.toList

/-- `select_season` from scraper.py: no-op success when the displayed season
already matches; otherwise open the dropdown, click the exact-text option,
wait, and return `True` — with no re-verification. -/
def select_season (env : SeasonEnv) (season : String) : Bool × List SeasonUI :=
  if is_season_selected env.displayedSeason season then (true, [])
  else if env.dropdownClick then
    if env.optionClick season then
      (true, [.openSeasonDropdown, .clickSeasonOption season])
    else (false, [.openSeasonDropdown])
  else (false, [])

/-- Environment for the C4 counterexample: the page still shows the old
season after the (claimed) verification point, yet every click succeeds. -/
def seasonCexEnv : SeasonEnv :=
  { displayedSeason := some "23/24", dropdownClick := true,
    optionClick := fun _ => true, displayedAfterReload := some "23/24" }

/-- C4 counterexample: with the target season `"24/25"` not displayed and
all clicks succeeding, `select_season` reports success even though the
season displayed after the reload wait still differs from the target — the
code returns `True` without the re-verification the claim describes. -/
theorem select_season_no_reverify_cex :
    (select_season seasonCexEnv "24/25").1 = true ∧
    is_season_selected seasonCexEnv.displayedAfterReload "24/25" = false := by
  refine ⟨by decide, by decide⟩

/-- C4 (amended): when the displayed season already equals the target,
`select_season` succeeds with no UI interaction; otherwise it opens the
selector, clicks the exact-text option and returns success without
re-verifying — success is exactly "already selected, or dropdown and option
click both succeeded", and the result never depends on what the page
displays after the reload wait. -/
theorem select_season_amended (env : SeasonEnv) (season : String) (v : Option String) :
    (is_season_selected env.displayedSeason season = true →
      select_season env season = (true, [])) ∧
    (is_season_selected env.displayedSeason season = false →
      env.dropdownClick = true → env.optionClick season = true →
      select_season env season =
        (true, [SeasonUI.openSeasonDropdown, SeasonUI.clickSeasonOption season])) ∧
    ((select_season env season).1 =
      (is_season_selected env.displayedSeason season ||
        (env.dropdownClick && env.optionClick season))) ∧
    ((select_season { env with displayedAfterReload := v } season).1 =
      (select_season env season).1) := by
  cases h1 : is_season_selected env.displayedSeason season <;>
    cases h2 : env.dropdownClick <;>
      cases h3 : env.optionClick season <;>
        simp [select_season, h1, h2, h3]

/-- C4 witness: the amended characterization evaluated at the
counterexample environment. -/
theorem select_season_amended_witness :
    (is_season_selected seasonCexEnv.displayedSeason "24/25" = true →
      select_season seasonCexEnv "24/25" = (true, [])) ∧
    (is_season_selected seasonCexEnv.displayedSeason "24/25" = false →
      seasonCexEnv.dropdownClick = true → seasonCexEnv.optionClick "24/25" = true →
      select_season seasonCexEnv "24/25" =
        (true, [SeasonUI.openSeasonDropdown, SeasonUI.clickSeasonOption "24/25"])) ∧
    ((select_season seasonCexEnv "24/25").1 =
      (is_season_selected seasonCexEnv.displayedSeason "24/25" ||
        (seasonCexEnv.dropdownClick && seasonCexEnv.optionClick "24/25"))) ∧
    ((select_season { seasonCexEnv with displayedAfterReload := some "24/25" } "24/25").1 =
      (select_season seasonCexEnv "24/25").1) :=
  select_season_amended seasonCexEnv "24/25" (some "24/25")

/-! ## Round navigation (scraper.py lines 180-217) -/

/-- Scanner for `re.search(r"Round (\d+)", text)`: at each position try the
literal `"Round "` followed by at least one digit; the capture is the
maximal digit run. -/
def roundSearch : List Char → Option Nat
  | [] => none
  | c :: rest =>
    match dropLead ("Round ".toList) (c :: rest) with
    | some (d :: ds) =>
      if d.isDigit then some (takeDigits (digitVal d) ds)
      else roundSearch rest
    | _ => roundSearch rest

/-- `_extract_round`: `None` when the round label element is missing or its
stripped text has no `Round N` match. -/
def extract_round (roundText : Option String) : Option Int :=
  match roundText with
  | none => none
  | some t =>
    match roundSearch (stripChars t.toList) with
    | some n => some (Int.ofNat n)
    | none => none

/-- Outcomes of the page interactions `navigate_to_round` can attempt:
the round label text, whether the round dropdown button and the
`Round {target}` option can be clicked, and whether the i-th arrow
interaction (find plus click) succeeds. -/
structure RoundEnv where
  roundText : Option String
  dropdownBtnClick : Bool
  dropdownOptionClick : Int → Bool
  arrowClick : Nat → Bool

/-- UI interactions performed by `navigate_to_round`. -/
inductive RoundUI where
  | openRoundDropdown
  | clickRoundOption (target : Int)
  | clickArrowNext
  | clickArrowPrev
deriving DecidableEq, Repr

/-- The arrow-stepping loop: `k` remaining steps, `i` the index of the next
arrow interaction; aborts with failure as soon as one arrow cannot be
found or clicked. -/
def stepArrows (env : RoundEnv) (arrow : RoundUI) : Nat → Nat → Bool × List RoundUI
  | _, 0 => (true, [])
  | i, k + 1 =>
    if env.arrowClick i then
      let r := stepArrows env arrow (i + 1) k
      (r.1, arrow :: r.2)
    else (false, [])

/-- `navigate_to_round` from scraper.py: no-op success when the displayed
round equals the target; otherwise try the dropdown; otherwise step the
next/previous arrow `|target - (current or 0)|` times. -/
def navigate_to_round (env : RoundEnv) (target : Int) : Bool × List RoundUI :=
  let current := extract_round env.roundText
  if current = some target then (true, [])
  else if env.dropdownBtnClick && env.dropdownOptionClick target then
    (true, [.openRoundDropdown, .clickRoundOption target])
  else
    let diff : Int := target - current.getD 0
    let arrow : RoundUI := if 0 < diff then .clickArrowNext else .clickArrowPrev
    let r := stepArrows env arrow 0 diff.natAbs
    (r.1, (if env.dropdownBtnClick then [RoundUI.openRoundDropdown] else []) ++ r.2)

theorem stepArrows_replicate (env : RoundEnv) (arrow : RoundUI)
    (h : ∀ i, env.arrowClick i = true) :
    ∀ k i, stepArrows env arrow i k = (true, List.replicate k arrow) := by
  intro k
  induction k with
  | zero => intro i; simp [stepArrows]
  | succ k ih => intro i; simp [stepArrows, h i, ih, List.replicate_succ]

/-- C5: when the dropdown path fails and every arrow click succeeds, the
stepping loop performs exactly `|target - current|` arrow clicks — forward
arrows when `target > current`, backward arrows when `target < current` —
and when the round label cannot be parsed `current` is treated as 0, so the
loop performs `target` forward clicks. -/
theorem navigate_to_round_step_count (env : RoundEnv) (target c : Int)
    (hdrop : (env.dropdownBtnClick && env.dropdownOptionClick target) = false)
    (harrows : ∀ i, env.arrowClick i = true) :
    (extract_round env.roundText = some c → c ≠ target →
      navigate_to_round env target =
        (true,
          (if env.dropdownBtnClick then [RoundUI.openRoundDropdown] else []) ++
            List.replicate (target - c).natAbs
              (if 0 < target - c then RoundUI.clickArrowNext else RoundUI.clickArrowPrev))) ∧
    (extract_round env.roundText = none → 0 ≤ target →
      navigate_to_round env target =
        (true,
          (if env.dropdownBtnClick then [RoundUI.openRoundDropdown] else []) ++
            List.replicate target.natAbs RoundUI.clickArrowNext)) := by
  constructor
  · intro hc hne
    have hne2 : ¬(c = target) := hne
    simp [navigate_to_round, hc, hne2, hdrop, stepArrows_replicate env _ harrows]
  · intro hc hpos
    have harrow : (if (0 : Int) < target - (0 : Int) then RoundUI.clickArrowNext
        else RoundUI.clickArrowPrev) = RoundUI.clickArrowNext ∨ target = 0 := by
      rcases lt_or_eq_of_le hpos with h | h
      · left
        simp [h]
      · right
        omega
    rcases harrow with h | h
    · simp only [navigate_to_round, hc, hdrop]
      simp only [Option.getD_none, Int.sub_zero] at h ⊢
      simp [h, stepArrows_replicate env _ harrows]
    · subst h
      simp [navigate_to_round, hc, hdrop, stepArrows_replicate env _ harrows]

/-- Environment for the C5 witness: page shows `Round 5`, the dropdown is
unavailable, every arrow click works. -/
def stepEnvW : RoundEnv :=
  { roundText := some "Round 5", dropdownBtnClick := false,
    dropdownOptionClick := fun _ => false, arrowClick := fun _ => true }

/-- C5 witness: current round 5, target 2 — exactly three backward steps. -/
theorem navigate_to_round_step_count_witness :
    navigate_to_round stepEnvW 2 =
      (true,
        (if stepEnvW.dropdownBtnClick then [RoundUI.openRoundDropdown] else []) ++
          List.replicate ((2 : Int) - 5).natAbs
            (if 0 < (2 : Int) - 5 then RoundUI.clickArrowNext else RoundUI.clickArrowPrev)) :=
  (navigate_to_round_step_count stepEnvW 2 5 (by decide) (fun _ => rfl)).1 (by decide) (by decide)

/-- C6: when the displayed round label parses to the target (the state a
successful first call leaves the page in), `navigate_to_round` reads the
round, finds it equal to the target and returns success with no UI
interaction — no dropdown opening and no arrow clicks. -/
theorem navigate_to_round_idempotent (env : RoundEnv) (target : Int)
    (h : extract_round env.roundText = some target) :
    navigate_to_round env target = (true, []) := by
  simp [navigate_to_round, h]

/-- C6 witness: second call on a page already showing `Round 7`. -/
theorem navigate_to_round_idempotent_witness :
    navigate_to_round
      { roundText := some "Round 7", dropdownBtnClick := true,
        dropdownOptionClick := fun _ => true, arrowClick := fun _ => true } 7 = (true, []) :=
  navigate_to_round_idempotent _ 7 (by decide)

/-! ## Match records as Python dicts

`scrape_match` builds a dict; the runner adds `match_id` and `source_url`
to it before appending it to the store.  The dict is modelled as an
association list with Python's assignment semantics (overwrite in place,
else append at the end). -/

/-- One statistics row: `{name, home_value, away_value}`. -/
structure StatRow where
  name : String
  home_value : String
  away_value : String
deriving DecidableEq, Repr

/-- The three statistics views returned by `_get_stats`. -/
structure StatsViews where
  overall : List StatRow
  first_half : List StatRow
  second_half : List StatRow
deriving DecidableEq, Repr

/-- `_get_date_time` result. -/
structure DateTimeInfo where
  date_time : String
  date : String
  time : String
deriving DecidableEq, Repr

/-- `_get_teams` result. -/
structure Teams where
  home_team : String
  away_team : String
deriving DecidableEq, Repr

/-- `_get_venue` result. -/
structure Venue where
  name : String
  location : String
deriving DecidableEq, Repr

/-- `_get_referee` result. -/
structure Referee where
  name : String
  avg_red_cards : String
  avg_yellow_cards : String
  attendance : String
deriving DecidableEq, Repr

/-- `_get_odds` result (outcomes 1 / X / 2). -/
structure Odds where
  one : String
  draw : String
  two : String
deriving DecidableEq, Repr

/-- `_get_crowd_voting` result. -/
structure CrowdVoting where
  home : IntOrNA
  draw : IntOrNA
  away : IntOrNA
  total_votes : String
deriving DecidableEq, Repr

/-- A Python value stored in a match-record dict. -/
inductive Value where
  | vstr (s : String)
  | vint (n : Int)
  | vdt (d : DateTimeInfo)
  | vteams (t : Teams)
  | vvenue (v : Venue)
  | vref (r : Referee)
  | vodds (o : Odds)
  | vvotes (c : CrowdVoting)
  | vstats (s : StatsViews)
deriving DecidableEq, Repr

/-- A match record: a Python dict in insertion order. -/
abbrev Record := List (String × Value)

/-- `k in d` for a Python dict. -/
def hasKey (d : Record) (k : String) : Bool :=
  d.any (fun p => p.1 == k)

/-- `d[k]` for a Python dict, `none` when the key is missing (`KeyError`). -/
def dictGet (d : Record) (k : String) : Option Value :=
  (d.find? (fun p => p.1 == k)).map (fun p => p.2)

/-- `d[k] = v` for a Python dict: overwrite in place when the key exists,
otherwise append the new key at the end. -/
def dictSet (d : Record) (k : String) (v : Value) : Record :=
  if hasKey d k then d.map (fun p => if p.1 == k then (k, v) else p)
  else d ++ [(k, v)]

/-! ## `scrape_match` (scraper.py lines 234-290) -/

/-- The field values the per-field extractors produce when the page loads;
each extractor always returns a value (missing data becomes `N/A`-style
sentinels inside these structures). -/
structure PageFields where
  date_time_info : DateTimeInfo
  teams : Teams
  venue : Venue
  referee : Referee
  odds : Odds
  crowd_voting : CrowdVoting
  statistics : StatsViews
deriving DecidableEq, Repr

/-- How one isolated-tab page visit turns out: a full load with extracted
fields, a `WebDriverException` on navigation, some other exception inside
the `try` block, or a `KeyboardInterrupt`. -/
inductive PageLoad where
  | ok (f : PageFields)
  | webDriverError
  | otherError
  | interrupted
deriving DecidableEq, Repr

/-- The dict literal built in `scrape_match` on a successful load. -/
def matchDataOf (matchday : Int) (f : PageFields) : Record :=
  [("matchday", .vint matchday),
   ("date_time_info", .vdt f.date_time_info),
   ("teams", .vteams f.teams),
   ("venue", .vvenue f.venue),
   ("referee", .vref f.referee),
   ("odds", .vodds f.odds),
   ("crowd_voting", .vvotes f.crowd_voting),
   ("statistics", .vstats f.statistics)]

/-- `scrape_match` (value semantics): a `WebDriverException` or any other
exception is caught and yields the empty dict `{}`; a `KeyboardInterrupt`
is re-raised (`Except.error`). -/
def scrape_match (matchday : Int) (page : PageLoad) : Except Unit Record :=
  match page with
  | .ok f => .ok (matchDataOf matchday f)
  | .webDriverError => .ok []
  | .otherError => .ok []
  | .interrupted => .error ()

/-- Browser-driver actions `scrape_match` performs on the shared session. -/
inductive DriverEvent where
  | openTab
  | switchToNewTab
  | navigate
  | extractFields
  | closeTab
  | switchToOriginal
deriving DecidableEq, Repr

/-- Python `try/finally`: the `finally` actions run after the body's
actions on every exit path, and the body's outcome is returned (or
re-raised) unchanged. -/
def tryFinallyEvents (body : List DriverEvent × Except Unit Record)
    (fin : List DriverEvent) : List DriverEvent × Except Unit Record :=
  (body.1 ++ fin, body.2)

/-- `scrape_match` (trace semantics): the driver actions performed,
together with the returned or re-raised outcome.  The `finally` block
closes the tab and switches back to the original tab only under its guard
(`sessionAlive`: the session id is set and the handle list is nonempty). -/
def scrape_match_events (matchday : Int) (page : PageLoad) (sessionAlive : Bool) :
    List DriverEvent × Except Unit Record :=
  let body : List DriverEvent × Except Unit Record :=
    match page with
    | .ok f =>
      ([.openTab, .switchToNewTab, .navigate, .extractFields], .ok (matchDataOf matchday f))
    | .webDriverError => ([.openTab, .switchToNewTab, .navigate], .ok [])
    | .otherError => ([.openTab, .switchToNewTab, .navigate, .extractFields], .ok [])
    | .interrupted => ([.openTab, .switchToNewTab, .navigate], .error ())
  tryFinallyEvents body
    (if sessionAlive then [.closeTab, .switchToOriginal] else [])

/-- C3: on every exit path of `scrape_match` — normal completion, a caught
extraction/navigation exception, and a propagating `KeyboardInterrupt` —
the trace ends by closing the isolated tab and switching focus back to the
original tab (provided the driver session is still alive, which is the
guard of the `finally` block), and the returned outcome is exactly that of
the value semantics. -/
theorem scrape_match_always_restores_tab (md : Int) (page : PageLoad) (alive : Bool)
    (halive : alive = true) :
    (∃ pre, (scrape_match_events md page alive).1 =
      pre ++ [DriverEvent.closeTab, DriverEvent.switchToOriginal]) ∧
    (scrape_match_events md page alive).2 = scrape_match md page := by
  subst halive
  refine ⟨?_, ?_⟩
  · cases page <;> exact ⟨_, rfl⟩
  · cases page <;> rfl

/-- C3 witness: the cleanup happens on the `KeyboardInterrupt` path too. -/
theorem scrape_match_always_restores_tab_witness :
    (∃ pre, (scrape_match_events 1 PageLoad.interrupted true).1 =
      pre ++ [DriverEvent.closeTab, DriverEvent.switchToOriginal]) ∧
    (scrape_match_events 1 PageLoad.interrupted true).2 = scrape_match 1 PageLoad.interrupted :=
  scrape_match_always_restores_tab 1 PageLoad.interrupted true rfl

/-! ## The runner loop (runner.py lines 26-64) -/

/-- A discovered match link: url, match id, and the matchday it belongs to. -/
structure MatchLink where
  url : String
  match_id : String
  md : Int
deriving DecidableEq, Repr

/-- The runner's mutable state: the in-memory store (`all_match_data`,
persisted wholesale after each append) and the `scraped_ids` set. -/
structure RunState where
  store : List Record
  seen : List Value
deriving DecidableEq, Repr

/-- `{m['match_id'] for m in scraper.all_match_data}`: `none` when a loaded
record lacks the key (Python raises `KeyError`). -/
def buildSeenIds : List Record → Option (List Value)
  | [] => some []
  | d :: rest =>
    match dictGet d "match_id", buildSeenIds rest with
    | some v, some vs => some (v :: vs)
    | _, _ => none

/-- `data['match_id'] = mid; data['source_url'] = link['url']` — performed
by the runner immediately before the append. -/
def finalizeRecord (data : Record) (l : MatchLink) : Record :=
  dictSet (dictSet data "match_id" (.vstr l.match_id)) "source_url" (.vstr l.url)

/-- The inner loop of `runner.main` over the discovered links: skip ids in
the seen set; otherwise scrape — a `KeyboardInterrupt` propagates (flag
`true`), a falsy result is only logged, and a truthy record is finalized,
appended, persisted, and its id added to the seen set. -/
def runLinks (env : MatchLink → PageLoad) : RunState → List MatchLink → RunState × Bool
  | st, [] => (st, false)
  | st, l :: ls =>
    if Value.vstr l.match_id ∈ st.seen then runLinks env st ls
    else
      match scrape_match l.md (env l) with
      | .error _ => (st, true)
      | .ok data =>
        if data.isEmpty then runLinks env st ls
        else
          runLinks env
            { store := st.store ++ [finalizeRecord data l],
              seen := st.seen ++ [Value.vstr l.match_id] } ls

/-- `runner.main` after a successful season selection: build the seen set
from the loaded store (a `KeyError` is caught by the outer handler and ends
the run with nothing scraped), then process the discovered links. -/
def runMain (env : MatchLink → PageLoad) (store0 : List Record) (links : List MatchLink) :
    RunState × Bool :=
  match buildSeenIds store0 with
  | none => ({ store := store0, seen := [] }, false)
  | some s0 => runLinks env { store := store0, seen := s0 } links

/-! ## Invariants of the runner loop -/

theorem dictGet_finalize (md : Int) (f : PageFields) (l : MatchLink) :
    dictGet (finalizeRecord (matchDataOf md f) l) "match_id" = some (Value.vstr l.match_id) := by
  rfl

theorem hasKey_finalize (md : Int) (f : PageFields) (l : MatchLink) :
    hasKey (finalizeRecord (matchDataOf md f) l) "match_id" = true ∧
    hasKey (finalizeRecord (matchDataOf md f) l) "source_url" = true := by
  exact ⟨rfl, rfl⟩

theorem matchDataOf_not_empty (md : Int) (f : PageFields) :
    (matchDataOf md f).isEmpty = false := rfl

/-- The seen set only grows along the loop. -/
theorem runLinks_seen_mono (env : MatchLink → PageLoad) :
    ∀ (ls : List MatchLink) (st : RunState),
      ∃ t, ((runLinks env st ls).1).seen = st.seen ++ t := by
  intro ls
  induction ls with
  | nil => intro st; exact ⟨[], by simp [runLinks]⟩
  | cons l ls ih =>
    intro st
    by_cases hmem : Value.vstr l.match_id ∈ st.seen
    · simpa [runLinks, hmem] using ih st
    · cases henv : env l with
      | ok f =>
        obtain ⟨t, ht⟩ :=
          ih { store := st.store ++ [finalizeRecord (matchDataOf l.md f) l],
               seen := st.seen ++ [Value.vstr l.match_id] }
        refine ⟨Value.vstr l.match_id :: t, ?_⟩
        rw [show runLinks env st (l :: ls) =
            runLinks env
              { store := st.store ++ [finalizeRecord (matchDataOf l.md f) l],
                seen := st.seen ++ [Value.vstr l.match_id] } ls from by
          simp [runLinks, hmem, henv, scrape_match, matchDataOf_not_empty]]
        rw [ht]
        simp
      | webDriverError => simpa [runLinks, hmem, henv, scrape_match] using ih st
      | otherError => simpa [runLinks, hmem, henv, scrape_match] using ih st
      | interrupted => exact ⟨[], by simp [runLinks, hmem, henv, scrape_match]⟩

/-- After a run that terminates without interruption, every discovered link
is either recorded in the final seen set or its scrape returned the empty
record. -/
theorem runLinks_covers (env : MatchLink → PageLoad) :
    ∀ (ls : List MatchLink) (st st1 : RunState), runLinks env st ls = (st1, false) →
      ∀ l ∈ ls, Value.vstr l.match_id ∈ st1.seen ∨
        scrape_match l.md (env l) = Except.ok ([] : Record) := by
  intro ls
  induction ls with
  | nil => intro st st1 h l hl; simp at hl
  | cons l0 ls ih =>
    intro st st1 h l hl
    by_cases hmem : Value.vstr l0.match_id ∈ st.seen
    · rw [show runLinks env st (l0 :: ls) = runLinks env st ls from by
        simp [runLinks, hmem]] at h
      rcases List.mem_cons.mp hl with rfl | hl2
      · left
        obtain ⟨t, ht⟩ := runLinks_seen_mono env ls st
        rw [h] at ht
        rw [ht]
        exact List.mem_append_left _ hmem
      · exact ih st st1 h l hl2
    · cases henv : env l0 with
      | ok f =>
        rw [show runLinks env st (l0 :: ls) =
            runLinks env
              { store := st.store ++ [finalizeRecord (matchDataOf l0.md f) l0],
                seen := st.seen ++ [Value.vstr l0.match_id] } ls from by
          simp [runLinks, hmem, henv, scrape_match, matchDataOf_not_empty]] at h
        rcases List.mem_cons.mp hl with rfl | hl2
        · left
          obtain ⟨t, ht⟩ := runLinks_seen_mono env ls
            { store := st.store ++ [finalizeRecord (matchDataOf l.md f) l],
              seen := st.seen ++ [Value.vstr l.match_id] }
          rw [h] at ht
          rw [ht]
          refine List.mem_append_left _ ?_
          simp
        · exact ih _ st1 h l hl2
      | webDriverError =>
        rw [show runLinks env st (l0 :: ls) = runLinks env st ls from by
          simp [runLinks, hmem, henv, scrape_match]] at h
        rcases List.mem_cons.mp hl with rfl | hl2
        · right
          simp [scrape_match, henv]
        · exact ih st st1 h l hl2
      | otherError =>
        rw [show runLinks env st (l0 :: ls) = runLinks env st ls from by
          simp [runLinks, hmem, henv, scrape_match]] at h
        rcases List.mem_cons.mp hl with rfl | hl2
        · right
          simp [scrape_match, henv]
        · exact ih st st1 h l hl2
      | interrupted =>
        exfalso
        rw [show runLinks env st (l0 :: ls) = (st, true) from by
          simp [runLinks, hmem, henv, scrape_match]] at h
        simp at h

/-- A state whose seen set already covers every link (up to empty scrapes)
is a fixed point of the loop. -/
theorem runLinks_fixed (env : MatchLink → PageLoad) :
    ∀ (ls : List MatchLink) (st : RunState),
      (∀ l ∈ ls, Value.vstr l.match_id ∈ st.seen ∨
        scrape_match l.md (env l) = Except.ok ([] : Record)) →
      runLinks env st ls = (st, false) := by
  intro ls
  induction ls with
  | nil => intro st _; simp [runLinks]
  | cons l ls ih =>
    intro st h
    have hrest := ih st (fun x hx => h x (List.mem_cons_of_mem _ hx))
    rcases h l (List.mem_cons_self l ls) with hmem | hempty
    · simp [runLinks, hmem, hrest]
    · by_cases hmem : Value.vstr l.match_id ∈ st.seen
      · simp [runLinks, hmem, hrest]
      · simp [runLinks, hmem, hempty, hrest]

theorem buildSeenIds_concat :
    ∀ (s : List Record) (ids : List Value) (r : Record) (v : Value),
      buildSeenIds s = some ids → dictGet r "match_id" = some v →
      buildSeenIds (s ++ [r]) = some (ids ++ [v]) := by
  intro s
  induction s with
  | nil =>
    intro ids r v h1 h2
    simp [buildSeenIds] at h1
    subst h1
    simp [buildSeenIds, h2]
  | cons d rest ih =>
    intro ids r v h1 h2
    cases hd : dictGet d "match_id" with
    | none => rw [buildSeenIds, hd] at h1; simp at h1
    | some w =>
      cases hr : buildSeenIds rest with
      | none => rw [buildSeenIds, hd, hr] at h1; simp at h1
      | some ws =>
        rw [buildSeenIds, hd, hr] at h1
        simp at h1
        subst h1
        rw [List.cons_append, buildSeenIds, hd, ih ws r v hr h2]
        rfl

theorem nodup_append_single {α : Type} (l : List α) (a : α)
    (h1 : l.Nodup) (h2 : a ∉ l) : (l ++ [a]).Nodup := by
  simp [List.nodup_append, h1, h2]

/-- The loop preserves the invariant "the seen set is exactly the list of
`match_id` values of the store", and keeps it duplicate-free. -/
theorem runLinks_inv (env : MatchLink → PageLoad) :
    ∀ (ls : List MatchLink) (st st1 : RunState) (fl : Bool),
      runLinks env st ls = (st1, fl) →
      buildSeenIds st.store = some st.seen →
      buildSeenIds st1.store = some st1.seen ∧ (st.seen.Nodup → st1.seen.Nodup) := by
  intro ls
  induction ls with
  | nil =>
    intro st st1 fl h hsync
    rw [runLinks] at h
    obtain ⟨rfl, rfl⟩ := Prod.mk.injEq .. ▸ h
    exact ⟨hsync, id⟩
  | cons l ls ih =>
    intro st st1 fl h hsync
    by_cases hmem : Value.vstr l.match_id ∈ st.seen
    · rw [show runLinks env st (l :: ls) = runLinks env st ls from by
        simp [runLinks, hmem]] at h
      exact ih st st1 fl h hsync
    · cases henv : env l with
      | ok f =>
        rw [show runLinks env st (l :: ls) =
            runLinks env
              { store := st.store ++ [finalizeRecord (matchDataOf l.md f) l],
                seen := st.seen ++ [Value.vstr l.match_id] } ls from by
          simp [runLinks, hmem, henv, scrape_match, matchDataOf_not_empty]] at h
        have hsync2 : buildSeenIds (st.store ++ [finalizeRecord (matchDataOf l.md f) l]) =
            some (st.seen ++ [Value.vstr l.match_id]) :=
          buildSeenIds_concat st.store st.seen _ _ hsync (dictGet_finalize l.md f l)
        obtain ⟨ha, hb⟩ := ih _ st1 fl h hsync2
        exact ⟨ha, fun hnd => hb (nodup_append_single _ _ hnd hmem)⟩
      | webDriverError =>
        rw [show runLinks env st (l :: ls) = runLinks env st ls from by
          simp [runLinks, hmem, henv, scrape_match]] at h
        exact ih st st1 fl h hsync
      | otherError =>
        rw [show runLinks env st (l :: ls) = runLinks env st ls from by
          simp [runLinks, hmem, henv, scrape_match]] at h
        exact ih st st1 fl h hsync
      | interrupted =>
        rw [show runLinks env st (l :: ls) = (st, true) from by
          simp [runLinks, hmem, henv, scrape_match]] at h
        obtain ⟨rfl, rfl⟩ := Prod.mk.injEq .. ▸ h
        exact ⟨hsync, id⟩

/-- C1: starting from a loaded store with duplicate-free `match_id`s, a run
over a fixed set of discovered links skips every id already in the seen set,
so the final store still has duplicate-free ids (the seen set is exactly the
stores' id list), and a second run of `runner.main` over the same link set
is a no-op: it returns the same state, so the store size is unchanged. -/
theorem runner_store_dedup (env : MatchLink → PageLoad) (store0 : List Record)
    (links : List MatchLink) (s0 : List Value) (st1 : RunState)
    (h0 : buildSeenIds store0 = some s0)
    (hnd : s0.Nodup)
    (hrun : runLinks env { store := store0, seen := s0 } links = (st1, false)) :
    buildSeenIds st1.store = some st1.seen ∧
    st1.seen.Nodup ∧
    runMain env st1.store links = (st1, false) ∧
    (runMain env st1.store links).1.store.length = st1.store.length := by
  obtain ⟨hsync1, hndimp⟩ := runLinks_inv env links { store := store0, seen := s0 } st1 false hrun h0
  have hnd1 := hndimp hnd
  have hcov := runLinks_covers env links { store := store0, seen := s0 } st1 hrun
  have hfix := runLinks_fixed env links { store := st1.store, seen := st1.seen } hcov
  have hmain : runMain env st1.store links = (st1, false) := by
    unfold runMain
    rw [hsync1]
    exact hfix
  exact ⟨hsync1, hnd1, hmain, by rw [hmain]⟩

/-- Concrete extracted fields used by the runner witnesses. -/
def samplePage : PageFields :=
  { date_time_info := { date_time := "01/02/2025 15:00", date := "01/02/2025", time := "15:00" },
    teams := { home_team := "Arsenal", away_team := "Chelsea" },
    venue := { name := "Emirates Stadium", location := "London" },
    referee := { name := "M. Oliver", avg_red_cards := "0.1", avg_yellow_cards := "3.5",
                 attendance := "60000" },
    odds := { one := "2.0", draw := "3.1", two := "3.8" },
    crowd_voting := { home := .int 50, draw := .int 20, away := .int 30, total_votes := "1000" },
    statistics := { overall := [], first_half := [], second_half := [] } }

/-- Concrete match link used by the runner witnesses. -/
def sampleLink : MatchLink :=
  { url := "https://www.sofascore.com/football/match/a-b/xyz#id:111", match_id := "111", md := 1 }

/-- C1 witness: one link scraped into an empty store; the second run
returns the identical state. -/
theorem runner_store_dedup_witness :
    buildSeenIds ((runLinks (fun _ => PageLoad.ok samplePage)
        { store := [], seen := [] } [sampleLink]).1).store =
      some ((runLinks (fun _ => PageLoad.ok samplePage)
        { store := [], seen := [] } [sampleLink]).1).seen ∧
    ((runLinks (fun _ => PageLoad.ok samplePage)
        { store := [], seen := [] } [sampleLink]).1).seen.Nodup ∧
    runMain (fun _ => PageLoad.ok samplePage)
        ((runLinks (fun _ => PageLoad.ok samplePage)
          { store := [], seen := [] } [sampleLink]).1).store [sampleLink] =
      ((runLinks (fun _ => PageLoad.ok samplePage)
        { store := [], seen := [] } [sampleLink]).1, false) ∧
    (runMain (fun _ => PageLoad.ok samplePage)
        ((runLinks (fun _ => PageLoad.ok samplePage)
          { store := [], seen := [] } [sampleLink]).1).store [sampleLink]).1.store.length =
      ((runLinks (fun _ => PageLoad.ok samplePage)
        { store := [], seen := [] } [sampleLink]).1).store.length :=
  runner_store_dedup (fun _ => PageLoad.ok samplePage) [] [sampleLink] []
    ((runLinks (fun _ => PageLoad.ok samplePage) { store := [], seen := [] } [sampleLink]).1)
    rfl List.nodup_nil rfl

/-- C2: when loading a match page raises a `WebDriverException` and the
match is not in the seen set, `scrape_match` returns the empty record, and
the runner step appends nothing, leaves the seen set unchanged (so the
match stays eligible for a future run), and continues with the remaining
links. -/
theorem page_load_failure_skips (env : MatchLink → PageLoad) (st : RunState)
    (l : MatchLink) (ls : List MatchLink)
    (hfail : env l = PageLoad.webDriverError)
    (hnew : Value.vstr l.match_id ∉ st.seen) :
    scrape_match l.md (env l) = Except.ok ([] : Record) ∧
    runLinks env st (l :: ls) = runLinks env st ls := by
  constructor
  · simp [scrape_match, hfail]
  · simp [runLinks, hnew, hfail, scrape_match]

/-- C2 witness: a single failing link over the empty store. -/
theorem page_load_failure_skips_witness :
    scrape_match sampleLink.md ((fun _ => PageLoad.webDriverError) sampleLink) =
      Except.ok ([] : Record) ∧
    runLinks (fun _ => PageLoad.webDriverError) { store := [], seen := [] } [sampleLink] =
      runLinks (fun _ => PageLoad.webDriverError) { store := [], seen := [] } [] :=
  page_load_failure_skips (fun _ => PageLoad.webDriverError) { store := [], seen := [] }
    sampleLink [] rfl (by simp)

/-- A record carries the two keys the runner writes before appending. -/
def goodRec (d : Record) : Prop :=
  hasKey d "match_id" = true ∧ hasKey d "source_url" = true

/-- The loop only appends finalized records, so both keys are present in
every record of the final store whenever they are present in the initial
one. -/
theorem runLinks_keys (env : MatchLink → PageLoad) :
    ∀ (ls : List MatchLink) (st st1 : RunState) (fl : Bool),
      runLinks env st ls = (st1, fl) →
      (∀ d ∈ st.store, goodRec d) → ∀ d ∈ st1.store, goodRec d := by
  intro ls
  induction ls with
  | nil =>
    intro st st1 fl h hgood
    rw [runLinks] at h
    obtain ⟨rfl, rfl⟩ := Prod.mk.injEq .. ▸ h
    exact hgood
  | cons l ls ih =>
    intro st st1 fl h hgood
    by_cases hmem : Value.vstr l.match_id ∈ st.seen
    · rw [show runLinks env st (l :: ls) = runLinks env st ls from by
        simp [runLinks, hmem]] at h
      exact ih st st1 fl h hgood
    · cases henv : env l with
      | ok f =>
        rw [show runLinks env st (l :: ls) =
            runLinks env
              { store := st.store ++ [finalizeRecord (matchDataOf l.md f) l],
                seen := st.seen ++ [Value.vstr l.match_id] } ls from by
          simp [runLinks, hmem, henv, scrape_match, matchDataOf_not_empty]] at h
        refine ih _ st1 fl h ?_
        intro d hd
        rcases List.mem_append.mp hd with hd1 | hd2
        · exact hgood d hd1
        · rw [List.mem_singleton.mp hd2]
          exact hasKey_finalize l.md f l
      | webDriverError =>
        rw [show runLinks env st (l :: ls) = runLinks env st ls from by
          simp [runLinks, hmem, henv, scrape_match]] at h
        exact ih st st1 fl h hgood
      | otherError =>
        rw [show runLinks env st (l :: ls) = runLinks env st ls from by
          simp [runLinks, hmem, henv, scrape_match]] at h
        exact ih st st1 fl h hgood
      | interrupted =>
        rw [show runLinks env st (l :: ls) = (st, true) from by
          simp [runLinks, hmem, henv, scrape_match]] at h
        obtain ⟨rfl, rfl⟩ := Prod.mk.injEq .. ▸ h
        exact hgood

theorem dictGet_isSome_of_hasKey :
    ∀ (d : Record) (k : String), hasKey d k = true → ∃ v, dictGet d k = some v := by
  intro d k
  induction d with
  | nil => intro h; simp [hasKey] at h
  | cons p rest ih =>
    intro h
    by_cases hp : p.1 == k
    · exact ⟨p.2, by simp [dictGet, List.find?, hp]⟩
    · have : hasKey rest k = true := by
        simp [hasKey] at h ⊢
        rcases h with h1 | h2
        · exact absurd (by simp [h1] : (p.1 == k) = true) hp
        · exact h2
      obtain ⟨v, hv⟩ := ih this
      refine ⟨v, ?_⟩
      simp only [dictGet, List.find?] at hv ⊢
      rw [show (p.1 == k) = false from by simpa using hp]
      exact hv

theorem buildSeenIds_isSome_of_keys :
    ∀ s : List Record, (∀ d ∈ s, hasKey d "match_id" = true) →
      ∃ ids, buildSeenIds s = some ids := by
  intro s
  induction s with
  | nil => intro _; exact ⟨[], rfl⟩
  | cons d rest ih =>
    intro h
    obtain ⟨v, hv⟩ := dictGet_isSome_of_hasKey d "match_id" (h d (List.mem_cons_self d rest))
    obtain ⟨ids, hids⟩ := ih (fun x hx => h x (List.mem_cons_of_mem _ hx))
    exact ⟨v :: ids, by rw [buildSeenIds, hv, hids]⟩

/-- C10: if every loaded record carries `match_id` and `source_url` (the
runner sets both right before each append, and an empty or program-written
store satisfies this), then every record of the store after a run carries
both keys, and building the seen-id set from that store never fails on a
missing key. -/
theorem appended_records_keep_ids (env : MatchLink → PageLoad) (store0 : List Record)
    (links : List MatchLink)
    (h0 : ∀ d ∈ store0, goodRec d) :
    (∀ d ∈ ((runMain env store0 links).1).store, goodRec d) ∧
    ∃ ids, buildSeenIds ((runMain env store0 links).1).store = some ids := by
  obtain ⟨ids0, hids0⟩ := buildSeenIds_isSome_of_keys store0 (fun d hd => (h0 d hd).1)
  have hred : runMain env store0 links = runLinks env { store := store0, seen := ids0 } links := by
    unfold runMain
    rw [hids0]
  rw [hred]
  have hkeys := runLinks_keys env links { store := store0, seen := ids0 }
    (runLinks env { store := store0, seen := ids0 } links).1
    (runLinks env { store := store0, seen := ids0 } links).2 rfl h0
  exact ⟨hkeys, buildSeenIds_isSome_of_keys _ (fun d hd => (hkeys d hd).1)⟩

/-- C10 witness: the empty loaded store trivially satisfies the key
hypothesis; the conclusion is evaluated after one successful scrape. -/
theorem appended_records_keep_ids_witness :
    (∀ d ∈ ((runMain (fun _ => PageLoad.ok samplePage) [] [sampleLink]).1).store, goodRec d) ∧
    ∃ ids, buildSeenIds ((runMain (fun _ => PageLoad.ok samplePage) [] [sampleLink]).1).store =
      some ids :=
  appended_records_keep_ids (fun _ => PageLoad.ok samplePage) [] [sampleLink] (by simp)

/-! ## Statistics views (scraper.py lines 516-610) -/

/-- Environment for the statistics extraction: the rows the page shows on
each tab (tab 1 is the default overall view, tabs 2 and 3 the half views),
whether the attempt-`a` click on a tab succeeds, and the successive row
counts the poll loop observes during attempt `a` before its timeout. -/
structure StatsEnv where
  viewRows : Nat → List StatRow
  tabClick : Nat → Nat → Bool
  polls : Nat → Nat → List Nat

/-- Events of the statistics extraction: reading the rows of a view,
switching to a tab, and running the row-count poll loop on a tab. -/
inductive StatsEv where
  | extractView (tab : Nat)
  | tabSwitch (tab : Nat)
  | pollRows (tab : Nat)
deriving DecidableEq, Repr

/-- `wait_for_stat_rows`: poll the row count until at least `min_rows`
rows are present; the argument list is the sequence of counts observed
before the timeout, and an exhausted list is the timeout (`False`). -/
def wait_for_stat_rows (min_rows : Nat) : List Nat → Bool
  | [] => false
  | n :: rest => if min_rows ≤ n then true else wait_for_stat_rows min_rows rest

/-- The three-attempt loop `extract_with_retries` of `_get_stats`: on each
attempt, find and click the tab; when the click lands and the poll reaches
10 rows, read the view; otherwise sleep and retry. -/
def extractAttempts (env : StatsEnv) (tabId : Nat) : List Nat → List StatRow × List StatsEv
  | [] => ([], [])
  | a :: rest =>
    if env.tabClick tabId a then
      if wait_for_stat_rows 10 (env.polls tabId a) then
        (env.viewRows tabId, [.tabSwitch tabId, .pollRows tabId, .extractView tabId])
      else
        let r := extractAttempts env tabId rest
        (r.1, .tabSwitch tabId :: .pollRows tabId :: r.2)
    else
      extractAttempts env tabId rest

/-- `extract_with_retries(tab_id, label)`: `for attempt in range(3)`. -/
def extract_with_retries (env : StatsEnv) (tabId : Nat) : List StatRow × List StatsEv :=
  extractAttempts env tabId [0, 1, 2]

/-- `_get_stats`: the overall view is read directly from the default tab;
the first-half view (tab 2) and the second-half view (tab 3) go through
`extract_with_retries`. -/
def get_stats (env : StatsEnv) : StatsViews × List StatsEv :=
  let fh := extract_with_retries env 2
  let sh := extract_with_retries env 3
  ({ overall := env.viewRows 1, first_half := fh.1, second_half := sh.1 },
   .extractView 1 :: (fh.2 ++ sh.2))

/-- Shape of an `extract_with_retries` trace: every failed attempt is a tab
switch followed by a poll, and the rows are read only immediately after a
tab switch and a successful poll. -/
inductive HalfTrace (t : Nat) : List StatsEv → Prop
  | done : HalfTrace t []
  | success : HalfTrace t [StatsEv.tabSwitch t, StatsEv.pollRows t, StatsEv.extractView t]
  | failedPoll (rest : List StatsEv) : HalfTrace t rest →
      HalfTrace t (StatsEv.tabSwitch t :: StatsEv.pollRows t :: rest)

theorem extractAttempts_halfTrace (env : StatsEnv) (t : Nat) :
    ∀ attempts : List Nat, HalfTrace t (extractAttempts env t attempts).2 := by
  intro attempts
  induction attempts with
  | nil => exact HalfTrace.done
  | cons a rest ih =>
    by_cases h1 : env.tabClick t a
    · by_cases h2 : wait_for_stat_rows 10 (env.polls t a)
      · simpa [extractAttempts, h1, h2] using HalfTrace.success
      · simpa [extractAttempts, h1, h2] using HalfTrace.failedPoll _ ih
    · simpa [extractAttempts, h1] using ih

theorem extractAttempts_empty_of_fail (env : StatsEnv) (t : Nat) :
    ∀ attempts : List Nat,
      (∀ a ∈ attempts, env.tabClick t a = false ∨
        wait_for_stat_rows 10 (env.polls t a) = false) →
      (extractAttempts env t attempts).1 = [] := by
  intro attempts
  induction attempts with
  | nil => intro _; rfl
  | cons a rest ih =>
    intro h
    have hrest := ih (fun x hx => h x (List.mem_cons_of_mem _ hx))
    rcases h a (List.mem_cons_self a rest) with h1 | h2
    · simp [extractAttempts, h1, hrest]
    · by_cases h1 : env.tabClick t a
      · simp [extractAttempts, h1, h2, hrest]
      · simp [extractAttempts, h1, hrest]

/-- `true` exactly on tab-switch events. -/
def isTabSwitchEv : StatsEv → Bool
  | .tabSwitch _ => true
  | _ => false

/-- Environment for the C8 counterexample: every tab click succeeds and
every poll immediately sees 10 rows — the friendliest possible page. -/
def statsCexEnv : StatsEnv :=
  { viewRows := fun _ => [], tabClick := fun _ _ => true, polls := fun _ _ => [10] }

/-- C8 counterexample: even on a page where every tab click and poll
succeeds, the very first event of `_get_stats` reads the overall view's
rows, and it is not a tab switch — the overall view is not obtained via a
tab switch followed by a poll loop, contradicting the claim's "each of the
three views". -/
theorem stats_overall_no_tab_switch_cex :
    (get_stats statsCexEnv).2.headD (StatsEv.extractView 0) = StatsEv.extractView 1 ∧
    isTabSwitchEv ((get_stats statsCexEnv).2.headD (StatsEv.extractView 0)) = false := by
  refine ⟨by decide, by decide⟩

/-- C8 (amended): the overall view is read directly from the default tab —
the extraction's first event is that read, with no preceding tab switch or
poll; the first-half and second-half views are each obtained through tab
switches followed by row polls (minimum 10 rows), the rows being read only
right after a successful poll; and a half view whose three attempts all
fail (click or poll) resolves to the empty sequence while the record and
its other views are still produced. -/
theorem stats_views_amended (env env2 : StatsEnv) (t : Nat)
    (hfail : ∀ a, a < 3 → env2.tabClick t a = false ∨
      wait_for_stat_rows 10 (env2.polls t a) = false) :
    (get_stats env).1.overall = env.viewRows 1 ∧
    (get_stats env).2.headD (StatsEv.extractView 0) = StatsEv.extractView 1 ∧
    (get_stats env).1.first_half = (extract_with_retries env 2).1 ∧
    (get_stats env).1.second_half = (extract_with_retries env 3).1 ∧
    HalfTrace 2 (extract_with_retries env 2).2 ∧
    HalfTrace 3 (extract_with_retries env 3).2 ∧
    (extract_with_retries env2 t).1 = [] ∧
    (get_stats env2).1.overall = env2.viewRows 1 := by
  refine ⟨rfl, rfl, rfl, rfl, extractAttempts_halfTrace env 2 _,
    extractAttempts_halfTrace env 3 _, ?_, rfl⟩
  refine extractAttempts_empty_of_fail env2 t [0, 1, 2] ?_
  intro a ha
  apply hfail
  simp only [List.mem_cons, List.not_mem_nil, or_false] at ha
  rcases ha with rfl | rfl | rfl <;> omega

/-- Environment for the C8 witness: no tab click ever succeeds. -/
def statsFailEnv : StatsEnv :=
  { viewRows := fun _ => [], tabClick := fun _ _ => false, polls := fun _ _ => [] }

/-- C8 witness: the amended statement evaluated on the friendly page and,
for the empty-view part, on a page whose first-half tab never reacts. -/
theorem stats_views_amended_witness :
    (get_stats statsCexEnv).1.overall = statsCexEnv.viewRows 1 ∧
    (get_stats statsCexEnv).2.headD (StatsEv.extractView 0) = StatsEv.extractView 1 ∧
    (get_stats statsCexEnv).1.first_half = (extract_with_retries statsCexEnv 2).1 ∧
    (get_stats statsCexEnv).1.second_half = (extract_with_retries statsCexEnv 3).1 ∧
    HalfTrace 2 (extract_with_retries statsCexEnv 2).2 ∧
    HalfTrace 3 (extract_with_retries statsCexEnv 3).2 ∧
    (extract_with_retries statsFailEnv 2).1 = [] ∧
    (get_stats statsFailEnv).1.overall = statsFailEnv.viewRows 1 :=
  stats_views_amended statsCexEnv statsFailEnv 2 (fun _ _ => Or.inl rfl)

end Sofa
